import Mathlib

/-!
Shallow embedding of the SchemaGenie repository (src/client/pages/Index.tsx).

The file contains two components:
* the server request handler `handleGenerateSchema` (an Express `RequestHandler`)
  together with its canned content (`mockSchemas`, `mockAPIRoutes`,
  `mockExplanation`, `generateERDiagram`), and
* the client page `Index` whose submission button and diagram decoding we model
  (`generateDisabled`, `selectedContent`, `clientDecodeDiagram`).

JavaScript runtime details that matter for the claims are modelled explicitly:
* `req.body` is untyped JSON, so the `options` field may be absent/null
  (property access throws a TypeError), a primitive (property access yields
  `undefined`), or an object; this is the `JSOptions` type.
* `Buffer.from(s).toString(base64-flag)` and `atob` are modelled by `btoa` /
  `atob` over byte lists; every string involved is ASCII, so UTF-8 bytes
  coincide with the character codes.
* In string literals below, `\x7b`/`\x7d` stand for the brace characters and
  `\x27` for the apostrophe character of the original source text.
-/

set_option maxRecDepth 32768

namespace SchemaGenie

/-- The four generation options of the request body
(`options` in `SchemaGenerationRequest`, Index.tsx lines 516-521).
Fields are `Option`-valued where the JSON body may omit them;
the two switches are booleans (an absent field is falsy, i.e. `false`). -/
structure GenOptions where
  outputFormat : Option String
  databaseType : Option String
  suggestAPI : Bool
  generateERD : Bool
deriving DecidableEq

/-- The runtime value of the `options` field of an untyped JSON body:
`missing` covers `undefined`/`null` (property access throws),
`prim` covers primitive non-objects such as numbers, strings and booleans
(property access yields `undefined`), and `obj` an actual object. -/
inductive JSOptions where
  | missing
  | prim
  | obj (o : GenOptions)
deriving DecidableEq

/-- `SchemaGenerationRequest` (Index.tsx lines 513-522): the JSON request body.
`inputCode = none` models an absent/null field. -/
structure SchemaGenerationRequest where
  inputCode : Option String
  inputType : Option String
  options : JSOptions
deriving DecidableEq

/-- `SchemaGenerationResponse` (Index.tsx lines 524-529): the JSON success body.
A field set to `undefined` is dropped by JSON serialization, hence `Option`. -/
structure SchemaGenerationResponse where
  schema : Option String
  erdImageUrl : Option String
  apiRoutes : Option String
  explanation : Option String
deriving DecidableEq

/-- The JSON body the handler sends: either `\x7b error: msg \x7d`
(via `res.status(...).json(...)`) or a success response (via `res.json(...)`). -/
inductive ResponseBody where
  | error (msg : String)
  | success (resp : SchemaGenerationResponse)
deriving DecidableEq

/-- Observable outcome of one handler invocation: whether the artificial
2000 ms delay was awaited, the HTTP status code, and the JSON body. -/
structure HandlerOutcome where
  delayed : Bool
  status : Nat
  body : ResponseBody
deriving DecidableEq

/-- The `schema` field of the response body, `none` on error bodies. -/
def ResponseBody.schemaField : ResponseBody → Option String
  | .error _ => none
  | .success r => r.schema

/-- The `erdImageUrl` field of the response body, `none` on error bodies. -/
def ResponseBody.erdField : ResponseBody → Option String
  | .error _ => none
  | .success r => r.erdImageUrl

/-- The `apiRoutes` field of the response body, `none` on error bodies. -/
def ResponseBody.apiRoutesField : ResponseBody → Option String
  | .error _ => none
  | .success r => r.apiRoutes

/-- The `explanation` field of the response body, `none` on error bodies. -/
def ResponseBody.explanationField : ResponseBody → Option String
  | .error _ => none
  | .success r => r.explanation

/-! ### Base64 (Node `Buffer.toString` with the base64 flag, browser `atob`) -/

/-- The standard base64 alphabet. -/
def base64Alphabet : List Char :=
  "ABCDEFGHIJKLMNOPQRSTUVWXYZabcdefghijklmnopqrstuvwxyz0123456789+/".toList

/-- The base64 digit for a 6-bit value. -/
def b64Char (n : Nat) : Char := base64Alphabet.getD n '='

/-- Index of a base64 digit in the alphabet (only applied to alphabet digits). -/
def b64ValAux : List Char → Char → Nat → Nat
  | [], _, _ => 0
  | c :: cs, ch, i => if c = ch then i else b64ValAux cs ch (i + 1)

/-- The 6-bit value of a base64 digit. -/
def b64Val (ch : Char) : Nat := b64ValAux base64Alphabet ch 0

/-- Base64-encode a byte list (standard alphabet, `=` padding),
as `Buffer.from(text).toString(base64-flag)` does. -/
def b64Encode : List Nat → List Char
  | [] => []
  | [b1] => [b64Char (b1 / 4), b64Char ((b1 % 4) * 16), '=', '=']
  | [b1, b2] =>
    [b64Char (b1 / 4), b64Char ((b1 % 4) * 16 + b2 / 16), b64Char ((b2 % 16) * 4), '=']
  | b1 :: b2 :: b3 :: rest =>
    b64Char (b1 / 4) :: b64Char ((b1 % 4) * 16 + b2 / 16) ::
    b64Char ((b2 % 16) * 4 + b3 / 64) :: b64Char (b3 % 64) :: b64Encode rest

/-- Base64-decode a digit list (with `=` padding), as the browser `atob` does
on well-formed input. -/
def b64Decode : List Char → List Nat
  | [c1, c2, '=', '='] => [b64Val c1 * 4 + b64Val c2 / 16]
  | [c1, c2, c3, '='] =>
    [b64Val c1 * 4 + b64Val c2 / 16, (b64Val c2 % 16) * 16 + b64Val c3 / 4]
  | c1 :: c2 :: c3 :: c4 :: rest =>
    (b64Val c1 * 4 + b64Val c2 / 16) :: ((b64Val c2 % 16) * 16 + b64Val c3 / 4) ::
    ((b64Val c3 % 4) * 64 + b64Val c4) :: b64Decode rest
  | _ => []

/-- Bytes of an ASCII string (for ASCII text, UTF-8 bytes = character codes). -/
def strToBytes (s : String) : List Nat := s.toList.map Char.toNat

/-- String built from a byte list (one latin1 character per byte, as `atob`). -/
def bytesToStr (bs : List Nat) : String := String.mk (bs.map Char.ofNat)

/-- `Buffer.from(s).toString(base64-flag)` for ASCII `s`. -/
def btoa (s : String) : String := String.mk (b64Encode (strToBytes s))

/-- Browser `atob` on well-formed base64 input. -/
def atob (s : String) : String := bytesToStr (b64Decode s.toList)

/-- `pat` is a prefix of `s` (character lists). -/
def charsIsPrefix : List Char → List Char → Bool
  | [], _ => true
  | _ :: _, [] => false
  | p :: ps, c :: cs => p = c && charsIsPrefix ps cs

/-- `pat` occurs as a contiguous run inside `s` (character lists). -/
def charsInfix (pat : List Char) : List Char → Bool
  | [] => pat.isEmpty
  | c :: cs => charsIsPrefix pat (c :: cs) || charsInfix pat cs

/-- JS `String.prototype.startsWith`. -/
def strStartsWith (s pre : String) : Bool := charsIsPrefix pre.toList s.toList

/-- Splitting on a one-character separator, accumulator form. -/
def splitCharAux (sep : Char) : List Char → List Char → List (List Char)
  | [], acc => [acc.reverse]
  | c :: cs, acc =>
    if c = sep then acc.reverse :: splitCharAux sep cs []
    else splitCharAux sep cs (c :: acc)

/-- JS `String.prototype.split` with a one-character separator
(an empty string splits to a single empty piece, like JS). -/
def jsSplit (sep : Char) (s : String) : List String :=
  (splitCharAux sep s.toList []).map String.mk

/-- `true` when `pat` occurs as a substring of `s`. -/
def strContains (s pat : String) : Bool := charsInfix pat.toList s.toList

/-! ### Canned content (Index.tsx lines 531-695) -/

/-- The `prisma` entry of `mockSchemas` (lines 533-569). -/
def prismaSchema : String := "generator client \x7b
  provider = \"prisma-client-js\"
\x7d

datasource db \x7b
  provider = \"postgresql\"
  url      = env(\"DATABASE_URL\")
\x7d

model User \x7b
  id        String   @id @default(cuid())
  email     String   @unique
  name      String?
  createdAt DateTime @default(now())
  updatedAt DateTime @updatedAt
  posts     Post[]
  profile   Profile?
\x7d

model Profile \x7b
  id     String  @id @default(cuid())
  bio    String?
  avatar String?
  userId String  @unique
  user   User    @relation(fields: [userId], references: [id])
\x7d

model Post \x7b
  id        String   @id @default(cuid())
  title     String
  content   String?
  published Boolean  @default(false)
  authorId  String
  author    User     @relation(fields: [authorId], references: [id])
  createdAt DateTime @default(now())
  updatedAt DateTime @updatedAt
\x7d"

/-- The `sql` entry of `mockSchemas` (lines 570-593). -/
def sqlSchema : String := "CREATE TABLE users (
  id SERIAL PRIMARY KEY,
  email VARCHAR(255) UNIQUE NOT NULL,
  name VARCHAR(255),
  created_at TIMESTAMP DEFAULT NOW(),
  updated_at TIMESTAMP DEFAULT NOW()
);

CREATE TABLE profiles (
  id SERIAL PRIMARY KEY,
  bio TEXT,
  avatar VARCHAR(255),
  user_id INTEGER UNIQUE REFERENCES users(id) ON DELETE CASCADE
);

CREATE TABLE posts (
  id SERIAL PRIMARY KEY,
  title VARCHAR(255) NOT NULL,
  content TEXT,
  published BOOLEAN DEFAULT false,
  author_id INTEGER REFERENCES users(id) ON DELETE CASCADE,
  created_at TIMESTAMP DEFAULT NOW(),
  updated_at TIMESTAMP DEFAULT NOW()
);"

/-- The `mongodb` entry of `mockSchemas` (lines 594-615). -/
def mongodbSchema : String := "\x7b
  \"users\": \x7b
    \"_id\": \"ObjectId\",
    \"email\": \"String (unique, required)\",
    \"name\": \"String (optional)\",
    \"profile\": \x7b
      \"bio\": \"String (optional)\",
      \"avatar\": \"String (optional)\"
    \x7d,
    \"createdAt\": \"Date\",
    \"updatedAt\": \"Date\"
  \x7d,
  \"posts\": \x7b
    \"_id\": \"ObjectId\",
    \"title\": \"String (required)\",
    \"content\": \"String (optional)\",
    \"published\": \"Boolean (default: false)\",
    \"authorId\": \"ObjectId (ref: users._id)\",
    \"createdAt\": \"Date\",
    \"updatedAt\": \"Date\"
  \x7d
\x7d"

/-- The `firebase` entry of `mockSchemas` (lines 616-652). -/
def firebaseSchema : String := "\x7b
  \"users\": \x7b
    \"rules\": \x7b
      \"$uid\": \x7b
        \".read\": \"$uid === auth.uid\",
        \".write\": \"$uid === auth.uid\",
        \".validate\": \"newData.hasChildren([\x27email\x27, \x27createdAt\x27])\"
      \x7d
    \x7d,
    \"structure\": \x7b
      \"email\": \"string\",
      \"name\": \"string\",
      \"profile\": \x7b
        \"bio\": \"string\",
        \"avatar\": \"string\"
      \x7d,
      \"createdAt\": \"timestamp\",
      \"updatedAt\": \"timestamp\"
    \x7d
  \x7d,
  \"posts\": \x7b
    \"rules\": \x7b
      \".read\": true,
      \"$postId\": \x7b
        \".write\": \"auth != null && auth.uid == data.child(\x27authorId\x27).val()\"
      \x7d
    \x7d,
    \"structure\": \x7b
      \"title\": \"string\",
      \"content\": \"string\",
      \"published\": \"boolean\",
      \"authorId\": \"string\",
      \"createdAt\": \"timestamp\",
      \"updatedAt\": \"timestamp\"
    \x7d
  \x7d
\x7d"

/-- The OWN properties of the free-form string keyed lookup object
`mockSchemas` (lines 532-653): `none` for every key other than the four
entries. The full JavaScript bracket lookup, prototype chain included, is
`mockSchemasJS` below. -/
def mockSchemas (fmt : String) : Option String :=
  if fmt = "prisma" then some prismaSchema
  else if fmt = "sql" then some sqlSchema
  else if fmt = "mongodb" then some mongodbSchema
  else if fmt = "firebase" then some firebaseSchema
  else none

/-- `mockAPIRoutes` (lines 655-674). -/
def mockAPIRoutes : String := "// User Routes
POST   /api/users                 - Create user
GET    /api/users/:id             - Get user by ID
PUT    /api/users/:id             - Update user
DELETE /api/users/:id             - Delete user
GET    /api/users/:id/profile     - Get user profile

// Post Routes
GET    /api/posts                 - Get all posts
POST   /api/posts                 - Create post
GET    /api/posts/:id             - Get post by ID
PUT    /api/posts/:id             - Update post
DELETE /api/posts/:id             - Delete post
GET    /api/posts/user/:userId    - Get posts by user

// Authentication
POST   /api/auth/login            - User login
POST   /api/auth/logout           - User logout
POST   /api/auth/register         - User registration
GET    /api/auth/me               - Get current user"

/-- `mockExplanation` (lines 676-695). -/
def mockExplanation : String := "Based on your frontend code analysis, I\x27ve identified the following data relationships and designed an optimal schema:

**Key Entities Identified:**
- **User**: Core entity representing app users with authentication
- **Profile**: Extended user information with bio and avatar
- **Post**: Content created by users with publishing status

**Design Decisions:**
1. **Normalized Structure**: Separated profile from user table to reduce data redundancy
2. **Foreign Key Relationships**: Established proper relationships between users and posts
3. **Indexing Strategy**: Email uniqueness constraint for authentication
4. **Timestamps**: Added created/updated timestamps for audit trail
5. **Soft Dependencies**: Profile is optional, allowing flexible user onboarding

**Performance Considerations:**
- Email field indexed for fast login queries
- Author relationship indexed for efficient post retrieval
- Optional fields allow for gradual data collection

This schema supports scalability while maintaining data integrity and query performance."

/-- The diagram-description text returned by `generateERDiagram`
(the template literal of lines 698-726; it contains no interpolation). -/
def erdDiagramText : String := "erDiagram
    USER \x7b
        string id PK
        string email UK
        string name
        datetime created_at
        datetime updated_at
    \x7d

    PROFILE \x7b
        string id PK
        string bio
        string avatar
        string user_id FK
    \x7d

    POST \x7b
        string id PK
        string title
        string content
        boolean published
        string author_id FK
        datetime created_at
        datetime updated_at
    \x7d

    USER ||--o\x7b POST : \"creates\"
    USER ||--|| PROFILE : \"has\"
"

/-- `generateERDiagram` (lines 697-727): both parameters are ignored and the
fixed template literal is returned. The parameters are `Option String` because
the handler passes through whatever the JSON body held (possibly absent). -/
def generateERDiagram (_outputFormat _databaseType : Option String) : String :=
  erdDiagramText

/-! ### The generation endpoint (Index.tsx lines 729-762) -/

/-- Truthiness of `!inputCode` (line 733): `true` when the field is absent,
null, or the empty string. -/
def inputCodeEmpty (r : SchemaGenerationRequest) : Bool :=
  match r.inputCode with
  | none => true
  | some s => s.isEmpty

/-- `mockSchemas[options.outputFormat]` (line 740) when `options` is an object:
an absent `outputFormat` coerces to the key string form of `undefined`, which
is not an entry, so the lookup yields `undefined` (`none`). -/
def lookupSchema : Option String → Option String
  | none => none
  | some fmt => mockSchemas fmt

/-- `handleGenerateSchema` (lines 729-762). Control flow of the source:
1. destructure the body; if `!inputCode`, respond 400
   `\x7b error: Input code is required \x7d` (no delay incurred);
2. await the 2000 ms artificial delay;
3. read `options.outputFormat`: on an absent/null `options` this throws a
   TypeError, which the surrounding `try`/`catch` turns into a 500 response
   with the generic message `Failed to generate schema`; on a primitive
   `options` every property reads as `undefined`;
4. otherwise build the success response: the schema lookup, the fixed
   explanation, `apiRoutes` when `options.suggestAPI` is truthy, and the
   base64 data-URI `erdImageUrl` when `options.generateERD` is truthy;
   respond 200. -/
def handleGenerateSchema (req : SchemaGenerationRequest) : HandlerOutcome :=
  if inputCodeEmpty req then
    { delayed := false, status := 400, body := .error "Input code is required" }
  else
    match req.options with
    | .missing =>
      { delayed := true, status := 500, body := .error "Failed to generate schema" }
    | .prim =>
      { delayed := true, status := 200,
        body := .success
          { schema := none, erdImageUrl := none, apiRoutes := none,
            explanation := some mockExplanation } }
    | .obj o =>
      { delayed := true, status := 200,
        body := .success
          { schema := lookupSchema o.outputFormat,
            erdImageUrl :=
              if o.generateERD then
                some ("data:text/plain;base64," ++
                  btoa (generateERDiagram o.outputFormat o.databaseType))
              else none,
            apiRoutes := if o.suggestAPI then some mockAPIRoutes else none,
            explanation := some mockExplanation } }

/-! ### The client page `Index` (Index.tsx lines 75-510) -/

/-- The UI state feeding submission: the selected input tab, the shared text
buffer, the Figma URL field, and the in-flight flag (lines 76-86). -/
structure ClientState where
  selectedInputType : String
  inputCode : String
  figmaUrl : String
  isGenerating : Bool
deriving DecidableEq

/-- The `disabled` prop of the Generate button (line 346):
`isGenerating || (!inputCode && !figmaUrl)`. -/
def generateDisabled (s : ClientState) : Bool :=
  s.isGenerating || (s.inputCode.isEmpty && s.figmaUrl.isEmpty)

/-- The content sent as `inputCode` in the payload (line 104):
the Figma URL when the `figma` tab is selected, the text buffer otherwise. -/
def selectedContent (s : ClientState) : String :=
  if s.selectedInputType = "figma" then s.figmaUrl else s.inputCode

/-- The `chart` argument passed to `MermaidDiagram` (line 433):
`url.startsWith(data-colon) ? atob(url.split(comma)[1]) : url`.
Our only inputs carry exactly one comma, so index 1 exists. -/
def clientDecodeDiagram (url : String) : String :=
  if strStartsWith url "data:" then atob ((jsSplit ',' url).getD 1 "")
  else url

/-! ### Full JavaScript semantics of the `mockSchemas` bracket lookup

`mockSchemas` is a plain object literal, so `mockSchemas[options.outputFormat]`
falls back to the `Object.prototype` chain when the key is not one of the four
own entries: the key `__proto__` reaches the inherited accessor and yields
`Object.prototype` itself (an object, which `res.json` serializes as the empty
JSON object), while the other `Object.prototype` keys yield function values,
which JSON serialization drops just like `undefined`. -/

/-- The keys of `Object.prototype` reachable by bracket lookup on a plain
object in Node, besides the `__proto__` accessor; all are function-valued. -/
def objectPrototypeMethods : List String :=
  ["constructor", "__defineGetter__", "__defineSetter__", "hasOwnProperty",
   "__lookupGetter__", "__lookupSetter__", "isPrototypeOf",
   "propertyIsEnumerable", "toString", "valueOf", "toLocaleString"]

/-- Result of the JavaScript bracket lookup `mockSchemas[fmt]`, prototype
chain included: an own canned string, `Object.prototype` itself (reached by
the inherited `__proto__` accessor), an inherited function-valued method, or
`undefined`. -/
inductive JSLookup where
  | str (s : String)
  | protoObj
  | protoFun
  | undefinedVal
deriving DecidableEq

/-- `mockSchemas[fmt]` with full JavaScript semantics: own properties first
(the four entries), then the `Object.prototype` chain. -/
def mockSchemasJS (fmt : String) : JSLookup :=
  match mockSchemas fmt with
  | some s => .str s
  | none =>
    if fmt = "__proto__" then .protoObj
    else if fmt ∈ objectPrototypeMethods then .protoFun
    else .undefinedVal

/-- How `res.json` serializes the looked-up value sitting in the `schema`
position: a string passes through; `Object.prototype` has no enumerable own
property and serializes as the empty JSON object; a function value and
`undefined` are both dropped, leaving the field absent. -/
inductive SerializedSchema where
  | absent
  | text (s : String)
  | emptyObj
deriving DecidableEq

/-- Serialization of one lookup result (see `SerializedSchema`). -/
def serializeLookup : JSLookup → SerializedSchema
  | .str s => .text s
  | .protoObj => .emptyObj
  | .protoFun => .absent
  | .undefinedVal => .absent

/-- The serialized `schema` field of the handler's JSON response under full
JavaScript lookup semantics. Status, delay and the other fields are as in
`handleGenerateSchema`, whose `lookupSchema` covers the own-property region;
error bodies carry no `schema` field. A primitive `options` or an absent
`outputFormat` makes the key the string form of `undefined`, which is neither
an own entry nor an `Object.prototype` key. -/
def handlerSchemaFieldJS (req : SchemaGenerationRequest) : SerializedSchema :=
  if inputCodeEmpty req then .absent
  else
    match req.options with
    | .missing => .absent
    | .prim => .absent
    | .obj o =>
      match o.outputFormat with
      | none => .absent
      | some fmt => serializeLookup (mockSchemasJS fmt)

/-! ### Theorems -/

/-- Helper: the client decode rule applied to the exact data URI the handler
builds recovers the diagram-description text. -/
theorem erd_data_uri_roundtrip :
    clientDecodeDiagram ("data:text/plain;base64," ++ btoa erdDiagramText) =
      erdDiagramText := by decide

/-- C1: for every request with non-empty `inputCode` whose
`options.outputFormat` is one of the four known formats (an entry of the fixed
four-entry mapping `mockSchemas`), the response is a 200 success whose `schema`
field is exactly the canned schema text of that format — with no condition on
`inputCode`, `inputType`, or `databaseType`. -/
theorem c1_known_format_returns_canned_schema
    (req : SchemaGenerationRequest) (o : GenOptions) (fmt s : String)
    (hne : inputCodeEmpty req = false) (hopt : req.options = .obj o)
    (hfmt : o.outputFormat = some fmt) (hs : mockSchemas fmt = some s) :
    (handleGenerateSchema req).status = 200 ∧
    (handleGenerateSchema req).body.schemaField = some s := by
  simp [handleGenerateSchema, hne, hopt, lookupSchema, hfmt, hs,
    ResponseBody.schemaField]

/-- Witness for C1 at a concrete request (`prisma` format). -/
theorem c1_witness :
    (handleGenerateSchema ⟨some "<div />", some "react",
        .obj ⟨some "prisma", some "postgresql", true, true⟩⟩).status = 200 ∧
    (handleGenerateSchema ⟨some "<div />", some "react",
        .obj ⟨some "prisma", some "postgresql", true, true⟩⟩).body.schemaField =
      some prismaSchema :=
  c1_known_format_returns_canned_schema _ _ "prisma" prismaSchema rfl rfl rfl rfl

/-- C2: the handler is a deterministic function of only the three options
`outputFormat`, `suggestAPI`, `generateERD`: two requests with non-empty
`inputCode` and object-valued `options` agreeing on those three produce the
same outcome outright (hence byte-identical `schema`, `apiRoutes`,
`explanation` and diagram payload), whatever their `inputCode`, `inputType`,
or `databaseType`; in particular repeating one request repeats its response. -/
theorem c2_response_depends_only_on_three_options
    (r1 r2 : SchemaGenerationRequest) (o1 o2 : GenOptions)
    (h1 : inputCodeEmpty r1 = false) (h2 : inputCodeEmpty r2 = false)
    (ho1 : r1.options = .obj o1) (ho2 : r2.options = .obj o2)
    (hf : o1.outputFormat = o2.outputFormat)
    (ha : o1.suggestAPI = o2.suggestAPI)
    (he : o1.generateERD = o2.generateERD) :
    handleGenerateSchema r1 = handleGenerateSchema r2 := by
  simp [handleGenerateSchema, h1, h2, ho1, ho2, generateERDiagram, hf, ha, he]

/-- Witness for C2 at two concrete requests differing in `inputCode`,
`inputType` and `databaseType` but agreeing on the three options. -/
theorem c2_witness :
    handleGenerateSchema ⟨some "<div>a</div>", some "html",
        .obj ⟨some "sql", some "postgresql", true, false⟩⟩ =
    handleGenerateSchema ⟨some "let x = 1", some "react",
        .obj ⟨some "sql", some "mysql", true, false⟩⟩ :=
  c2_response_depends_only_on_three_options _ _ _ _ rfl rfl rfl rfl rfl rfl rfl

/-- C3: a request whose `inputCode` is absent or the empty string yields the
400 validation error `Input code is required`, with no generated field in the
body and without incurring the artificial delay. -/
theorem c3_empty_input_validation_error
    (req : SchemaGenerationRequest) (h : inputCodeEmpty req = true) :
    handleGenerateSchema req =
      { delayed := false, status := 400,
        body := .error "Input code is required" } ∧
    (handleGenerateSchema req).body.schemaField = none ∧
    (handleGenerateSchema req).body.apiRoutesField = none ∧
    (handleGenerateSchema req).body.erdField = none ∧
    (handleGenerateSchema req).body.explanationField = none := by
  refine ⟨?_, ?_, ?_, ?_, ?_⟩ <;>
    simp [handleGenerateSchema, h, ResponseBody.schemaField,
      ResponseBody.apiRoutesField, ResponseBody.erdField,
      ResponseBody.explanationField]

/-- Witness for C3 at a concrete request with an empty `inputCode`. -/
theorem c3_witness :
    handleGenerateSchema ⟨some "", some "react",
        .obj ⟨some "prisma", some "postgresql", true, true⟩⟩ =
      { delayed := false, status := 400,
        body := .error "Input code is required" } ∧
    (handleGenerateSchema ⟨some "", some "react",
        .obj ⟨some "prisma", some "postgresql", true, true⟩⟩).body.schemaField =
      none ∧
    (handleGenerateSchema ⟨some "", some "react",
        .obj ⟨some "prisma", some "postgresql", true, true⟩⟩).body.apiRoutesField =
      none ∧
    (handleGenerateSchema ⟨some "", some "react",
        .obj ⟨some "prisma", some "postgresql", true, true⟩⟩).body.erdField =
      none ∧
    (handleGenerateSchema ⟨some "", some "react",
        .obj ⟨some "prisma", some "postgresql", true, true⟩⟩).body.explanationField =
      none :=
  c3_empty_input_validation_error _ rfl

/-- C4: on a processed request (non-empty `inputCode`, object `options`), the
`apiRoutes` field is present exactly when `suggestAPI` is true, and then holds
the fixed canned route listing verbatim. -/
theorem c4_apiRoutes_iff_suggestAPI
    (req : SchemaGenerationRequest) (o : GenOptions)
    (hne : inputCodeEmpty req = false) (hopt : req.options = .obj o) :
    ((handleGenerateSchema req).body.apiRoutesField.isSome ↔
      o.suggestAPI = true) ∧
    (o.suggestAPI = true →
      (handleGenerateSchema req).body.apiRoutesField = some mockAPIRoutes) := by
  cases hsa : o.suggestAPI <;>
    simp [handleGenerateSchema, hne, hopt, hsa, ResponseBody.apiRoutesField]

/-- Witness for C4 at a concrete request with `suggestAPI = true`. -/
theorem c4_witness :
    ((handleGenerateSchema ⟨some "x", some "json",
        .obj ⟨some "mongodb", some "mongodb", true, false⟩⟩).body.apiRoutesField.isSome ↔
      True) ∧
    (True →
      (handleGenerateSchema ⟨some "x", some "json",
        .obj ⟨some "mongodb", some "mongodb", true, false⟩⟩).body.apiRoutesField =
        some mockAPIRoutes) := by
  have h := c4_apiRoutes_iff_suggestAPI ⟨some "x", some "json",
    .obj ⟨some "mongodb", some "mongodb", true, false⟩⟩
    ⟨some "mongodb", some "mongodb", true, false⟩ rfl rfl
  exact ⟨by simpa using h.1, fun _ => h.2 rfl⟩

/-- C5: on a processed request, the `erdImageUrl` field is present exactly when
`generateERD` is true; any present value decodes (strip the data prefix,
base64-decode) to the one fixed non-empty diagram-description text — the same
for all `outputFormat`/`databaseType` arguments — which contains an entity
block (`USER` followed by a brace) and a relationship line (`||--`). -/
theorem c5_diagram_iff_generateERD
    (req : SchemaGenerationRequest) (o : GenOptions)
    (hne : inputCodeEmpty req = false) (hopt : req.options = .obj o) :
    ((handleGenerateSchema req).body.erdField.isSome ↔ o.generateERD = true) ∧
    (∀ u, (handleGenerateSchema req).body.erdField = some u →
      clientDecodeDiagram u = erdDiagramText) ∧
    erdDiagramText ≠ "" ∧
    strContains erdDiagramText "USER \x7b" = true ∧
    strContains erdDiagramText "||--" = true ∧
    (∀ f1 d1 f2 d2 : Option String, generateERDiagram f1 d1 = generateERDiagram f2 d2) := by
  refine ⟨?_, ?_, by decide, by decide, by decide, fun _ _ _ _ => rfl⟩
  · cases hg : o.generateERD <;>
      simp [handleGenerateSchema, hne, hopt, hg, ResponseBody.erdField]
  · intro u hu
    cases hg : o.generateERD <;>
      simp [handleGenerateSchema, hne, hopt, hg, ResponseBody.erdField,
        generateERDiagram] at hu
    subst hu
    exact erd_data_uri_roundtrip

/-- Witness for C5 at a concrete request with `generateERD = true`. -/
theorem c5_witness :
    ((handleGenerateSchema ⟨some "x", some "figma",
        .obj ⟨some "firebase", some "firebase", false, true⟩⟩).body.erdField.isSome ↔
      True) ∧
    (∀ u, (handleGenerateSchema ⟨some "x", some "figma",
        .obj ⟨some "firebase", some "firebase", false, true⟩⟩).body.erdField = some u →
      clientDecodeDiagram u = erdDiagramText) := by
  have h := c5_diagram_iff_generateERD ⟨some "x", some "figma",
    .obj ⟨some "firebase", some "firebase", false, true⟩⟩
    ⟨some "firebase", some "firebase", false, true⟩ rfl rfl
  exact ⟨by simpa using h.1, h.2.1⟩

/-- C6: round-trip — for every diagram-bearing response, the client decoding
rule of `MermaidDiagram` (detect the data prefix, split at the comma,
base64-decode) applied to the server-produced `erdImageUrl` recovers exactly
the text produced by the server's `generateERDiagram`. -/
theorem c6_client_decode_recovers_diagram
    (req : SchemaGenerationRequest) (o : GenOptions) (u : String)
    (hne : inputCodeEmpty req = false) (hopt : req.options = .obj o)
    (hu : (handleGenerateSchema req).body.erdField = some u) :
    clientDecodeDiagram u = generateERDiagram o.outputFormat o.databaseType := by
  cases hg : o.generateERD <;>
    simp [handleGenerateSchema, hne, hopt, hg, ResponseBody.erdField,
      generateERDiagram] at hu
  subst hu
  exact erd_data_uri_roundtrip

/-- Witness for C6 at a concrete diagram-bearing request. -/
theorem c6_witness :
    clientDecodeDiagram ("data:text/plain;base64," ++ btoa erdDiagramText) =
      generateERDiagram (some "sql") (some "mysql") :=
  c6_client_decode_recovers_diagram
    ⟨some "y", some "html", .obj ⟨some "sql", some "mysql", false, true⟩⟩
    ⟨some "sql", some "mysql", false, true⟩
    ("data:text/plain;base64," ++ btoa erdDiagramText) rfl rfl (by decide)

/-- Concrete request with non-empty `inputCode` and the unknown output format
`yaml`, exhibiting the behavior of the handler on out-of-table formats. -/
def unknownFormatReq : SchemaGenerationRequest :=
  ⟨some "const a = 1", some "react", .obj ⟨some "yaml", some "postgresql", false, false⟩⟩

/-- C7 counterexample: on a request with non-empty `inputCode` and the unknown
output format `yaml` the endpoint does NOT fail with a `ValidationError`
(HTTP 400): it answers 200 success with no `schema` field — exactly the
undefined-lookup behavior the claim rules out. -/
theorem c7_counterexample :
    (handleGenerateSchema unknownFormatReq).status = 200 ∧
    (handleGenerateSchema unknownFormatReq).status ≠ 400 ∧
    (handleGenerateSchema unknownFormatReq).body.schemaField = none := by decide

/-- Concrete request with non-empty `inputCode` and the unknown output format
`__proto__`, which reaches the inherited `Object.prototype` accessor. -/
def protoFormatReq : SchemaGenerationRequest :=
  ⟨some "const b = 2", some "react", .obj ⟨some "__proto__", some "postgresql", false, false⟩⟩

/-- C7 amended: for every request with non-empty `inputCode` whose
`outputFormat` is a string outside the four-entry mapping, the endpoint does
not fail with a `ValidationError`: it returns a 200 success response with the
fixed explanation attached. Under full JavaScript lookup semantics the
serialized `schema` field is a present empty JSON object when the format is
`__proto__` (the inherited accessor yields `Object.prototype`), and absent for
every other unknown format (`undefined` and inherited function values are both
dropped by serialization). -/
theorem c7_unknown_format_no_validation_error
    (req : SchemaGenerationRequest) (o : GenOptions) (fmt : String)
    (hne : inputCodeEmpty req = false) (hopt : req.options = .obj o)
    (hfmt : o.outputFormat = some fmt) (hunk : mockSchemas fmt = none) :
    (handleGenerateSchema req).status = 200 ∧
    (handleGenerateSchema req).body.explanationField = some mockExplanation ∧
    handlerSchemaFieldJS req =
      (if fmt = "__proto__" then SerializedSchema.emptyObj
       else SerializedSchema.absent) := by
  refine ⟨?_, ?_, ?_⟩
  · simp [handleGenerateSchema, hne, hopt]
  · simp [handleGenerateSchema, hne, hopt, ResponseBody.explanationField]
  · simp only [handlerSchemaFieldJS, hne, Bool.false_eq_true, if_false, hopt, hfmt,
      mockSchemasJS, hunk]
    by_cases hp : fmt = "__proto__"
    · simp [hp, serializeLookup]
    · by_cases hm : fmt ∈ objectPrototypeMethods <;>
        simp [hp, hm, serializeLookup]

/-- Witness for the amended C7 at two concrete requests: the `__proto__`
format (present empty-object schema) and the `yaml` format (absent schema). -/
theorem c7_witness :
    ((handleGenerateSchema protoFormatReq).status = 200 ∧
      handlerSchemaFieldJS protoFormatReq = SerializedSchema.emptyObj) ∧
    ((handleGenerateSchema unknownFormatReq).status = 200 ∧
      (handleGenerateSchema unknownFormatReq).body.explanationField =
        some mockExplanation ∧
      handlerSchemaFieldJS unknownFormatReq = SerializedSchema.absent) := by
  have h1 := c7_unknown_format_no_validation_error protoFormatReq
    ⟨some "__proto__", some "postgresql", false, false⟩ "__proto__"
    rfl rfl rfl (by decide)
  have h2 := c7_unknown_format_no_validation_error unknownFormatReq
    ⟨some "yaml", some "postgresql", false, false⟩ "yaml"
    rfl rfl rfl (by decide)
  exact ⟨⟨h1.1, by simpa using h1.2.2⟩, ⟨h2.1, h2.2.1, by simpa using h2.2.2⟩⟩

/-- Concrete client state: Figma tab selected, empty Figma URL, non-empty text
buffer, no submission in flight. -/
def figmaEmptyUrlState : ClientState := ⟨"figma", "let a = 1", "", false⟩

/-- C8 counterexample: in the state with the `figma` tab selected, an empty
Figma URL, a non-empty text buffer and no submission in flight, the selected
kind's content is empty yet the Generate button is NOT disabled — so a state
permitting submission of an empty selected-kind content exists, contradicting
the claim. -/
theorem c8_counterexample :
    generateDisabled figmaEmptyUrlState = false ∧
    selectedContent figmaEmptyUrlState = "" ∧
    figmaEmptyUrlState.isGenerating = false := by decide

/-- C8 amended: submission is disabled exactly when a submission is in flight
or BOTH the text buffer and the Figma URL are empty — the guard does not
consult the selected input kind, so (as the counterexample shows) a state with
the `figma` kind selected, an empty URL and a non-empty buffer still permits
submission. -/
theorem c8_disabled_iff_inflight_or_both_empty (s : ClientState) :
    generateDisabled s = true ↔
      (s.isGenerating = true ∨
        (s.inputCode.isEmpty = true ∧ s.figmaUrl.isEmpty = true)) := by
  simp [generateDisabled]

/-- Witness for the amended C8 at concrete states (in flight; both empty). -/
theorem c8_witness :
    generateDisabled ⟨"react", "x", "", true⟩ = true ∧
    generateDisabled ⟨"react", "", "", false⟩ = true :=
  ⟨(c8_disabled_iff_inflight_or_both_empty ⟨"react", "x", "", true⟩).mpr
      (Or.inl rfl),
    (c8_disabled_iff_inflight_or_both_empty ⟨"react", "", "", false⟩).mpr
      (Or.inr ⟨rfl, rfl⟩)⟩

/-- C9: whenever the handler encounters its internal failure (in this code the
only throwing site is reading `options.outputFormat` on an absent/null
`options`, reached only with a non-empty `inputCode`), the `catch` responds
500 with the generic message `Failed to generate schema` and the body carries
none of the `schema`, `apiRoutes`, `erdImageUrl`, `explanation` fields. -/
theorem c9_internal_failure_generic_500
    (req : SchemaGenerationRequest)
    (hne : inputCodeEmpty req = false) (hmiss : req.options = .missing) :
    handleGenerateSchema req =
      { delayed := true, status := 500,
        body := .error "Failed to generate schema" } ∧
    (handleGenerateSchema req).body.schemaField = none ∧
    (handleGenerateSchema req).body.apiRoutesField = none ∧
    (handleGenerateSchema req).body.erdField = none ∧
    (handleGenerateSchema req).body.explanationField = none := by
  refine ⟨?_, ?_, ?_, ?_, ?_⟩ <;>
    simp [handleGenerateSchema, hne, hmiss, ResponseBody.schemaField,
      ResponseBody.apiRoutesField, ResponseBody.erdField,
      ResponseBody.explanationField]

/-- Witness for C9 at a concrete request with non-empty `inputCode` and a
missing `options` field. -/
theorem c9_witness :
    handleGenerateSchema ⟨some "z", some "react", .missing⟩ =
      { delayed := true, status := 500,
        body := .error "Failed to generate schema" } ∧
    (handleGenerateSchema ⟨some "z", some "react", .missing⟩).body.schemaField =
      none ∧
    (handleGenerateSchema ⟨some "z", some "react", .missing⟩).body.apiRoutesField =
      none ∧
    (handleGenerateSchema ⟨some "z", some "react", .missing⟩).body.erdField =
      none ∧
    (handleGenerateSchema ⟨some "z", some "react", .missing⟩).body.explanationField =
      none :=
  c9_internal_failure_generic_500 _ rfl rfl

/-- Concrete request with non-empty `inputCode` and a primitive (non-object,
non-null) `options` value, e.g. the JSON number 42. -/
def primOptionsReq : SchemaGenerationRequest := ⟨some "let b = 2", some "json", .prim⟩

/-- C10 counterexample: for a request with non-empty `inputCode` whose
`options` is a primitive non-object (e.g. the number 42), property access does
NOT throw in JavaScript — every read yields `undefined` — so the request does
not resolve as the claimed InternalError 500: it resolves 200 (after the
delay) with no `schema` field. -/
theorem c10_counterexample :
    (handleGenerateSchema primOptionsReq).status = 200 ∧
    (handleGenerateSchema primOptionsReq).status ≠ 500 ∧
    (handleGenerateSchema primOptionsReq).delayed = true ∧
    (handleGenerateSchema primOptionsReq).body.schemaField = none := by decide

/-- C10 amended: a request body with non-empty `inputCode` and a missing/null
`options` is not rejected with 400 — reading `options.outputFormat` throws and
the request resolves, after the artificial delay, as the generic
InternalError 500; a primitive non-object `options`, however, does not throw
(property access yields `undefined`) and resolves, after the delay, as a 200
response with no `schema` field. -/
theorem c10_missing_options_500_prim_options_200
    (req : SchemaGenerationRequest) (hne : inputCodeEmpty req = false) :
    (req.options = .missing →
      handleGenerateSchema req =
        { delayed := true, status := 500,
          body := .error "Failed to generate schema" }) ∧
    (req.options = .prim →
      (handleGenerateSchema req).delayed = true ∧
      (handleGenerateSchema req).status = 200 ∧
      (handleGenerateSchema req).body.schemaField = none) := by
  constructor
  · intro hmiss; simp [handleGenerateSchema, hne, hmiss]
  · intro hprim
    refine ⟨?_, ?_, ?_⟩ <;>
      simp [handleGenerateSchema, hne, hprim, ResponseBody.schemaField]

/-- Witness for the amended C10 at two concrete requests (missing `options`;
primitive `options`). -/
theorem c10_witness :
    handleGenerateSchema ⟨some "w", some "html", .missing⟩ =
      { delayed := true, status := 500,
        body := .error "Failed to generate schema" } ∧
    ((handleGenerateSchema primOptionsReq).delayed = true ∧
      (handleGenerateSchema primOptionsReq).status = 200 ∧
      (handleGenerateSchema primOptionsReq).body.schemaField = none) :=
  ⟨(c10_missing_options_500_prim_options_200
      ⟨some "w", some "html", .missing⟩ rfl).1 rfl,
    (c10_missing_options_500_prim_options_200 primOptionsReq rfl).2 rfl⟩

end SchemaGenie
